import Mathlib

set_option linter.unusedVariables false
set_option linter.unreachableTactic false
set_option linter.unusedTactic false

deriving instance DecidableEq for Except

/-! Shallow embedding of the Swarm trading SDKs (TypeScript sources under
`packages/shared`, `packages/trading-sdk`, `packages/market-maker-sdk` and
`packages/cross-chain-access-sdk`).  JavaScript numbers are modelled as
rationals, fallible calls return `Except`, and the network side effects of the
orchestration methods are recorded as explicit event traces driven by an
environment that fixes the outcome of each external call. -/

/-- Character-list test of whether `s` starts with the pattern `pat`. -/
def charsStartWith : List Char → List Char → Bool
  | _, [] => true
  | [], _ :: _ => false
  | c :: cs, p :: ps => (c == p) && charsStartWith cs ps

/-- Whether `pat` occurs as a contiguous substring of `s` (character lists). -/
def charsContain : List Char → List Char → Bool
  | [], pat => charsStartWith [] pat
  | c :: cs, pat => charsStartWith (c :: cs) pat || charsContain cs pat

/-- Substring test on strings, modelling JavaScript `String.prototype.includes`. -/
def stringIncludes (s pat : String) : Bool :=
  charsContain s.data pat.data

/-- Lower-casing, modelling JavaScript `String.prototype.toLowerCase` on the
ASCII strings that occur in the SDK messages. -/
def stringToLower (s : String) : String :=
  ⟨s.data.map Char.toLower⟩

/-- Rounding to a fixed number of decimal places, modelling
`Number(x.toFixed(decimals))` from the Cross-Chain Access client. -/
def roundToDecimals (decimals : ℕ) (x : ℚ) : ℚ :=
  (round (x * 10 ^ decimals) : ℤ) / 10 ^ decimals

/-- Supported blockchain networks (`shared/src/models.ts`, enum `Network`). -/
inductive Network
  | ETHEREUM
  | POLYGON
  | BASE
  | BSC
deriving DecidableEq

/-- Unified quote model (`shared/src/models.ts`, interface `Quote`).  Amounts
are in normalized decimal units; `timestamp` abstracts the JavaScript `Date`. -/
structure Quote where
  sellTokenAddress : String
  buyTokenAddress : String
  sellAmount : ℚ
  buyAmount : ℚ
  rate : ℚ
  source : String
  timestamp : ℕ
deriving DecidableEq

/-- Model of `getQuotePricePerUnit` (`shared/src/models.ts`): `buy_amount / sell_amount`,
`0` when `sellAmount` is zero. -/
def getQuotePricePerUnit (quote : Quote) : ℚ :=
  if quote.sellAmount = 0 then 0 else quote.buyAmount / quote.sellAmount

/-- Result of a completed trade (`shared/src/models.ts`, interface
`TradeResult`). -/
structure TradeResult where
  txHash : String
  orderId : Option String
  sellTokenAddress : String
  buyTokenAddress : String
  sellAmount : ℚ
  buyAmount : ℚ
  rate : ℚ
  source : String
  timestamp : ℕ
  network : Network
  status : String
deriving DecidableEq

/-- Model of `createTradeResult` (`shared/src/models.ts`): fills in the default status
`"completed"` when none is given. -/
def createTradeResult (txHash : String) (orderId : Option String)
    (sellTokenAddress : String) (sellAmount : ℚ) (buyTokenAddress : String)
    (buyAmount : ℚ) (rate : ℚ) (source : String) (timestamp : ℕ)
    (network : Network) (status : Option String) : TradeResult :=
  { txHash := txHash
    orderId := orderId
    sellTokenAddress := sellTokenAddress
    buyTokenAddress := buyTokenAddress
    sellAmount := sellAmount
    buyAmount := buyAmount
    rate := rate
    source := source
    timestamp := timestamp
    network := network
    status := status.getD "completed" }

/-- Platform routing strategy (`trading-sdk/src/routing.ts`, enum
`RoutingStrategy`). -/
inductive RoutingStrategy
  | BEST_PRICE
  | CROSS_CHAIN_ACCESS_FIRST
  | MARKET_MAKER_FIRST
  | CROSS_CHAIN_ACCESS_ONLY
  | MARKET_MAKER_ONLY
deriving DecidableEq

/-- Platform name (`"cross_chain_access" | "market_maker"` in `routing.ts`). -/
inductive Platform
  | cross_chain_access
  | market_maker
deriving DecidableEq

/-- String form of a platform name, as it appears in the TypeScript union. -/
def platformName : Platform → String
  | .cross_chain_access => "cross_chain_access"
  | .market_maker => "market_maker"

/-- A trading platform option with quote (`routing.ts`, interface
`PlatformOption`). -/
structure PlatformOption where
  platform : Platform
  quote : Option Quote
  available : Bool
  error : Option String
deriving DecidableEq

/-- Model of `createPlatformOption` (`routing.ts`): the `available` field defaults to
`true` when the caller omits it (`options.available ?? true`). -/
def createPlatformOption (platform : Platform) (quote : Option Quote)
    (available : Option Bool) (error : Option String) : PlatformOption :=
  { platform := platform
    quote := quote
    available := available.getD true
    error := error }

/-- Model of `getEffectiveRate` (`routing.ts`): comparison rate
`buyAmount / sellAmount`, `0` when the quote is missing or `sellAmount` is 0. -/
def getEffectiveRate (option : PlatformOption) : ℚ :=
  match option.quote with
  | none => 0
  | some quote =>
      if quote.sellAmount = 0 then 0 else quote.buyAmount / quote.sellAmount

/-- Error raised by the router (`trading-sdk/src/exceptions.ts`,
`NoLiquidityException`). -/
structure NoLiquidityException where
  message : String
deriving DecidableEq

/-- JavaScript template-literal rendering of a possibly-undefined error field. -/
def renderOptionalError : Option String → String
  | some e => e
  | none => "undefined"

/-- The aggregate message built when neither platform is available
(`routing.ts`, lines 104-115). -/
def noPlatformsMessage (crossChainAccessOption marketMakerOption : PlatformOption) :
    String :=
  let errors :=
    (match crossChainAccessOption.error with
      | some e => ["Cross-Chain Access: " ++ e]
      | none => []) ++
    (match marketMakerOption.error with
      | some e => ["Market Maker: " ++ e]
      | none => [])
  "No platforms available. " ++ String.intercalate "; " errors

/-- Model of `Router.selectPlatform` (`trading-sdk/src/routing.ts`).  The TypeScript
strategy checks are sequential `if` statements over the five enum values, so
they are rendered as a `match`; the trailing first-available fallback of
lines 218-221 is reachable only by falling through one of the two `*_FIRST`
branches when neither platform is available, and is inlined there. -/
def Router.selectPlatform (crossChainAccessOption marketMakerOption : PlatformOption)
    (strategy : RoutingStrategy) (isBuy : Bool) :
    Except NoLiquidityException PlatformOption :=
  let crossChainAccessAvailable :=
    crossChainAccessOption.available && crossChainAccessOption.quote.isSome
  let marketMakerAvailable :=
    marketMakerOption.available && marketMakerOption.quote.isSome
  if !crossChainAccessAvailable && !marketMakerAvailable then
    .error ⟨noPlatformsMessage crossChainAccessOption marketMakerOption⟩
  else
    match strategy with
    | .CROSS_CHAIN_ACCESS_ONLY =>
        if !crossChainAccessAvailable then
          .error ⟨"Cross-Chain Access not available: " ++
            renderOptionalError crossChainAccessOption.error⟩
        else
          .ok crossChainAccessOption
    | .MARKET_MAKER_ONLY =>
        if !marketMakerAvailable then
          .error ⟨"Market Maker not available: " ++
            renderOptionalError marketMakerOption.error⟩
        else
          .ok marketMakerOption
    | .CROSS_CHAIN_ACCESS_FIRST =>
        if crossChainAccessAvailable then
          .ok crossChainAccessOption
        else if marketMakerAvailable then
          .ok marketMakerOption
        else if crossChainAccessAvailable then
          .ok crossChainAccessOption
        else
          .ok marketMakerOption
    | .MARKET_MAKER_FIRST =>
        if marketMakerAvailable then
          .ok marketMakerOption
        else if crossChainAccessAvailable then
          .ok crossChainAccessOption
        else if crossChainAccessAvailable then
          .ok crossChainAccessOption
        else
          .ok marketMakerOption
    | .BEST_PRICE =>
        if crossChainAccessAvailable && !marketMakerAvailable then
          .ok crossChainAccessOption
        else if marketMakerAvailable && !crossChainAccessAvailable then
          .ok marketMakerOption
        else
          let crossChainAccessRate := getEffectiveRate crossChainAccessOption
          let marketMakerRate := getEffectiveRate marketMakerOption
          if isBuy then
            if crossChainAccessRate ≤ marketMakerRate then
              .ok crossChainAccessOption
            else
              .ok marketMakerOption
          else
            if crossChainAccessRate ≥ marketMakerRate then
              .ok crossChainAccessOption
            else
              .ok marketMakerOption

/-- Outcome of `crossChainAccessClient.getQuote` inside
`TradingClient.getCrossChainAccessOption`: success, a
`MarketClosedException` (caught specially), or any other thrown error
(stringified). -/
inductive CcaQuoteOutcome
  | ok (quote : Quote)
  | marketClosed (message : String)
  | failed (message : String)
deriving DecidableEq

/-- Environment fixing the outcome of every external call a single
`TradingClient.trade` invocation can make.  Both execution attempts for a
given platform receive the same arguments in the source, so one outcome per
platform is faithful for one call. -/
structure TradeEnv where
  marketMakerQuote : Except String Quote
  crossChainAccessQuote : CcaQuoteOutcome
  marketMakerExec : Except String TradeResult
  crossChainAccessExec : Except String TradeResult
deriving DecidableEq

/-- Events emitted by `TradingClient.trade`, in source order: client
initialization, the two quote fetches, the router invocation with its
arguments, and each execution attempt. -/
inductive TradeEvent
  | initializeClients
  | marketMakerQuoteFetch
  | crossChainAccessQuoteFetch
  | routerCall (strategy : RoutingStrategy) (isBuy : Bool)
  | executeAttempt (platform : Platform)
deriving DecidableEq

/-- Errors surfaced by `TradingClient.trade` (`trading-sdk/src/sdk/client.ts`
together with `trading-sdk/src/exceptions.ts`): the plain `Error` thrown by
the amount validation, `NoLiquidityException`, `AllPlatformsFailedException`,
and the generic `TradingException` wrap. -/
inductive TradingError
  | validationError (message : String)
  | noLiquidity (message : String)
  | allPlatformsFailed (message : String)
  | tradingError (message : String)
deriving DecidableEq

/-- Model of `TradingClient.getMarketMakerOption` (`sdk/client.ts`, lines 352-373):
any quote failure is caught and converted to an unavailable option whose
`error` records the stringified reason. -/
def getMarketMakerOption (env : TradeEnv) : PlatformOption :=
  match env.marketMakerQuote with
  | .ok quote => createPlatformOption .market_maker (some quote) none none
  | .error e => createPlatformOption .market_maker none (some false) (some e)

/-- Model of `TradingClient.getCrossChainAccessOption` (`sdk/client.ts`, lines
375-404): missing symbol and every quote failure are converted to an
unavailable option; a `MarketClosedException` is recorded as
`"Market closed"`. -/
def getCrossChainAccessOption (env : TradeEnv) (symbol : Option String) :
    PlatformOption :=
  match symbol with
  | none =>
      createPlatformOption .cross_chain_access none (some false)
        (some "Symbol not provided")
  | some _ =>
      match env.crossChainAccessQuote with
      | .ok quote => createPlatformOption .cross_chain_access (some quote) none none
      | .marketClosed _ =>
          createPlatformOption .cross_chain_access none (some false)
            (some "Market closed")
      | .failed e =>
          createPlatformOption .cross_chain_access none (some false) (some e)

/-- Dispatch of an execution attempt to the platform-specific executor
(`executeCrossChainAccessTrade` / `executeMarketMakerTrade` in
`sdk/client.ts`), with the outcome drawn from the environment. -/
def executePlatformTrade (env : TradeEnv) (platform : Platform) :
    Except String TradeResult :=
  match platform with
  | .cross_chain_access => env.crossChainAccessExec
  | .market_maker => env.marketMakerExec

/-- The fallback platform chosen in `trade` (`sdk/client.ts`, lines 299-302):
the platform other than the selected one. -/
def otherPlatform : Platform → Platform
  | .cross_chain_access => .market_maker
  | .market_maker => .cross_chain_access

/-- Message of the `AllPlatformsFailedException` built in `trade`
(`sdk/client.ts`, lines 338-340). -/
def allPlatformsFailedMessage (primary : Platform) (err : String)
    (fallback : Platform) (fallbackErr : String) : String :=
  "Primary (" ++ platformName primary ++ "): " ++ err ++ ". Fallback (" ++
    platformName fallback ++ "): " ++ fallbackErr

/-- Client-level state of `TradingClient` relevant to `trade`: the default
routing strategy and whether `initialize` has already run. -/
structure TradingClient where
  routingStrategy : RoutingStrategy
  initialized : Bool
deriving DecidableEq

/-- Trade options (`sdk/client.ts`, interface `TradeOptions`). -/
structure TradeOptions where
  fromToken : String
  toToken : String
  userEmail : String
  fromAmount : Option ℚ
  toAmount : Option ℚ
  toTokenSymbol : Option String
  routingStrategy : Option RoutingStrategy
deriving DecidableEq

/-- Model of `TradingClient.trade` (`trading-sdk/src/sdk/client.ts`, lines 203-348):
amount validation, lazy initialization, the two option fetches, routing,
execution on the selected platform and the strategy-gated fallback.  Returns
the surfaced result together with the trace of external effects. -/
def TradingClient.trade (client : TradingClient) (options : TradeOptions)
    (env : TradeEnv) : Except TradingError TradeResult × List TradeEvent :=
  if (options.fromAmount.isSome && options.toAmount.isSome) ||
      (options.fromAmount.isNone && options.toAmount.isNone) then
    (.error (.validationError "Must provide either fromAmount OR toAmount, not both"),
     [])
  else
    let strategy := options.routingStrategy.getD client.routingStrategy
    let isBuy := options.fromAmount.isSome
    let initEvents : List TradeEvent :=
      if !client.initialized then [.initializeClients] else []
    let marketMakerOption := getMarketMakerOption env
    let crossChainAccessOption :=
      match options.toTokenSymbol with
      | some sym => getCrossChainAccessOption env (some sym)
      | none =>
          createPlatformOption .cross_chain_access none (some false)
            (some "Symbol not provided")
    let quoteEvents :=
      initEvents ++ [TradeEvent.marketMakerQuoteFetch] ++
        (match options.toTokenSymbol with
          | some _ => [TradeEvent.crossChainAccessQuoteFetch]
          | none => [])
    match Router.selectPlatform crossChainAccessOption marketMakerOption strategy
        isBuy with
    | .error e =>
        (.error (.noLiquidity e.message),
         quoteEvents ++ [TradeEvent.routerCall strategy isBuy])
    | .ok selected =>
        let preExecEvents := quoteEvents ++ [TradeEvent.routerCall strategy isBuy]
        match executePlatformTrade env selected.platform with
        | .ok result =>
            (.ok result, preExecEvents ++ [TradeEvent.executeAttempt selected.platform])
        | .error err =>
            let afterPrimary :=
              preExecEvents ++ [TradeEvent.executeAttempt selected.platform]
            if strategy = .BEST_PRICE ∨ strategy = .CROSS_CHAIN_ACCESS_FIRST ∨
                strategy = .MARKET_MAKER_FIRST then
              let fallbackPlatform := otherPlatform selected.platform
              let fallbackOption :=
                match selected.platform with
                | .cross_chain_access => marketMakerOption
                | .market_maker => crossChainAccessOption
              if fallbackOption.available then
                match executePlatformTrade env fallbackPlatform with
                | .ok result =>
                    (.ok result,
                     afterPrimary ++ [TradeEvent.executeAttempt fallbackPlatform])
                | .error fallbackErr =>
                    (.error (.allPlatformsFailed
                        (allPlatformsFailedMessage selected.platform err
                          fallbackPlatform fallbackErr)),
                     afterPrimary ++ [TradeEvent.executeAttempt fallbackPlatform])
              else
                (.error (.tradingError ("Trade failed: " ++ err)), afterPrimary)
            else
              (.error (.tradingError ("Trade failed: " ++ err)), afterPrimary)

/-- Pricing type of a Market Maker offer (`rpqService/models.ts`, enum
`PricingType`). -/
inductive PricingType
  | FixedPricing
  | DynamicPricing
deriving DecidableEq

/-- A selected offer returned by the best-offers endpoint
(`rpqService/models.ts`, interface `SelectedOffer`).  The string-encoded
numeric fields are modelled after parsing: `withdrawalAmountPaid` after
`BigInt(...)`, `withdrawalAmountPaidDecimals` after `parseInt(...)`,
`pricePerUnit` after `parseFloat(...)`, and `depositToWithdrawalRate` after
`BigInt(...)` when present. -/
structure SelectedOffer where
  id : String
  withdrawalAmountPaid : ℤ
  withdrawalAmountPaidDecimals : ℕ
  maker : String
  pricePerUnit : ℚ
  pricingType : PricingType
  depositToWithdrawalRate : Option ℤ
deriving DecidableEq

/-- Errors surfaced by `MarketMakerClient.trade`: the two exception classes
its catch clause rethrows unchanged (`NoOffersAvailableException`,
`MarketMakerWeb3Exception`); every other failure is wrapped into the
latter. -/
inductive MarketMakerError
  | noOffersAvailable (message : String)
  | web3 (message : String)
deriving DecidableEq

/-- Environment fixing the outcomes of the external calls made by one
`MarketMakerClient.trade` invocation. -/
structure MarketMakerEnv where
  bestOffers : Except MarketMakerError (List SelectedOffer)
  takeOfferFixedOutcome : Except String String
  takeOfferDynamicOutcome : Except String String
  now : ℕ
deriving DecidableEq

/-- Events emitted by `MarketMakerClient.trade`: the best-offers fetch and
the on-chain take-offer submission with its arguments. -/
inductive MarketMakerEvent
  | getBestOffersCall
  | takeOfferFixedCall (offerId : String) (fromToken : String) (amountPaid : ℤ)
      (affiliate : Option String)
  | takeOfferDynamicCall (offerId : String) (fromToken : String) (amountPaid : ℤ)
      (maxRate : ℤ) (affiliate : Option String)
deriving DecidableEq

/-- Model of `MarketMakerClient.trade` (`market-maker-sdk/src/sdk/client.ts`, lines
174-287): fetch best offers, take the first selected offer, branch on its
pricing type (the dynamic branch requires `depositToWithdrawalRate` and
aborts with a `MarketMakerWeb3Exception` when it is absent), submit the
matching take-offer transaction and assemble the `TradeResult`. -/
def MarketMakerClient.trade (network : Network) (fromToken toToken : String)
    (affiliate : Option String) (env : MarketMakerEnv) :
    Except MarketMakerError TradeResult × List MarketMakerEvent :=
  match env.bestOffers with
  | .error e => (.error e, [.getBestOffersCall])
  | .ok offers =>
      match offers with
      | [] =>
          (.error (.noOffersAvailable "No suitable offers found for this trade"),
           [.getBestOffersCall])
      | selectedOffer :: _ =>
          let withdrawalAmountPaidWei := selectedOffer.withdrawalAmountPaid
          let withdrawalAmountPaidNormalized : ℚ :=
            (withdrawalAmountPaidWei : ℚ) /
              10 ^ selectedOffer.withdrawalAmountPaidDecimals
          let finish : String → List MarketMakerEvent →
              Except MarketMakerError TradeResult × List MarketMakerEvent :=
            fun txHash events =>
              let pricePerUnit := selectedOffer.pricePerUnit
              let depositAmountReceivedNormalized : ℚ :=
                if pricePerUnit > 0 then
                  withdrawalAmountPaidNormalized / pricePerUnit
                else 0
              (.ok (createTradeResult txHash (some selectedOffer.id) fromToken
                  withdrawalAmountPaidNormalized toToken
                  depositAmountReceivedNormalized pricePerUnit "market_maker"
                  env.now network none),
               events)
          if selectedOffer.pricingType = PricingType.DynamicPricing then
            match selectedOffer.depositToWithdrawalRate with
            | none =>
                (.error (.web3 ("Dynamic offer " ++ selectedOffer.id ++
                    " missing depositToWithdrawalRate")),
                 [.getBestOffersCall])
            | some maxRate =>
                match env.takeOfferDynamicOutcome with
                | .error e =>
                    (.error (.web3 e),
                     [.getBestOffersCall,
                      .takeOfferDynamicCall selectedOffer.id fromToken
                        withdrawalAmountPaidWei maxRate affiliate])
                | .ok txHash =>
                    finish txHash
                      [.getBestOffersCall,
                       .takeOfferDynamicCall selectedOffer.id fromToken
                         withdrawalAmountPaidWei maxRate affiliate]
          else
            match env.takeOfferFixedOutcome with
            | .error e =>
                (.error (.web3 e),
                 [.getBestOffersCall,
                  .takeOfferFixedCall selectedOffer.id fromToken
                    withdrawalAmountPaidWei affiliate])
            | .ok txHash =>
                finish txHash
                  [.getBestOffersCall,
                   .takeOfferFixedCall selectedOffer.id fromToken
                     withdrawalAmountPaidWei affiliate]

/-- Trading order side (`crossChainAccess/models.ts`, enum `OrderSide`). -/
inductive OrderSide
  | BUY
  | SELL
deriving DecidableEq

/-- Real-time market quote from the Cross-Chain Access API
(`crossChainAccess/models.ts`, interface `CrossChainAccessQuote`). -/
structure CrossChainAccessQuote where
  bidPrice : ℚ
  askPrice : ℚ
  bidSize : ℚ
  askSize : ℚ
  timestamp : ℕ
deriving DecidableEq

/-- Model of `getPriceForSide` (`crossChainAccess/models.ts`): ask price for buys,
bid price for sells. -/
def getPriceForSide (quote : CrossChainAccessQuote) (side : OrderSide) : ℚ :=
  if side = OrderSide.BUY then quote.askPrice else quote.bidPrice

/-- Trading account status (`crossChainAccess/models.ts`, interface
`AccountStatus`). -/
structure AccountStatus where
  accountBlocked : Bool
  tradingBlocked : Bool
  transfersBlocked : Bool
  tradeSuspendedByUser : Bool
  marketOpen : Bool
  accountStatus : String
deriving DecidableEq

/-- Model of `isTradingAllowed` (`crossChainAccess/models.ts`). -/
def isTradingAllowed (status : AccountStatus) : Bool :=
  !status.accountBlocked && !status.tradingBlocked && !status.transfersBlocked &&
    !status.tradeSuspendedByUser && status.marketOpen

/-- Trading account funds (`crossChainAccess/models.ts`, interface
`AccountFunds`). -/
structure AccountFunds where
  cash : ℚ
  buyingPower : ℚ
  dayTradingBuyingPower : ℚ
  effectiveBuyingPower : ℚ
  nonMarginBuyingPower : ℚ
  regTBuyingPower : ℚ
deriving DecidableEq

/-- Model of `hasSufficientFunds` (`crossChainAccess/models.ts`). -/
def hasSufficientFunds (funds : AccountFunds) (requiredAmount : ℚ) : Bool :=
  funds.buyingPower ≥ requiredAmount

/-- Order creation response (`crossChainAccess/models.ts`, interface
`CrossChainAccessOrderResponse`), reduced to the fields `executeTrade`
reads. -/
structure CrossChainAccessOrderResponse where
  orderId : String
  symbol : String
  side : String
  quantity : ℚ
  filledQty : ℚ
  status : String
deriving DecidableEq

/-- Model of `CrossChainAccessClient.getQuote` (`cross-chain-access-sdk/src/sdk/client.ts`,
lines 236-251): converts the venue quote into the unified `Quote` format with
`sellAmount = 1`, `buyAmount = 1 / askPrice` and `rate = askPrice`. -/
def CrossChainAccessClient.getQuote (usdcAddress rwaSymbol : String)
    (crossChainAccessQuote : CrossChainAccessQuote) (now : ℕ) : Quote :=
  { sellTokenAddress := usdcAddress
    sellAmount := 1
    buyTokenAddress := rwaSymbol
    buyAmount := 1 / crossChainAccessQuote.askPrice
    rate := crossChainAccessQuote.askPrice
    source := "cross_chain_access"
    timestamp := now }

/-- Errors surfaced by `CrossChainAccessClient.executeTrade`
(`sdk/client.ts` with `crossChainAccess/exceptions.ts`): market closed,
account blocked, insufficient funds, the transfer-layer failures, and the
`OrderFailedException` wrap produced by `CrossChainAccessAPIClient.createOrder`. -/
inductive CrossChainAccessError
  | marketClosed (message : String)
  | accountBlocked (message : String)
  | insufficientFunds (message : String)
  | transferFailed (message : String)
  | orderFailed (message : String)
deriving DecidableEq

/-- Environment fixing the outcomes of the external calls made by one
`CrossChainAccessClient.executeTrade` invocation.  `createOrderOutcome`
carries the underlying error message that `createOrder` wraps into
`OrderFailedException` on failure. -/
structure CrossChainAccessEnv where
  marketStatusOpen : Bool
  marketStatusMessage : String
  accountStatus : Except String AccountStatus
  assetQuote : CrossChainAccessQuote
  accountFunds : AccountFunds
  rwaBalance : ℚ
  transferOutcome : Except String String
  createOrderOutcome : Except String CrossChainAccessOrderResponse
  now : ℕ
deriving DecidableEq

/-- Funds-moving events of `executeTrade`: the on-chain transfer to the topup
address and the off-chain order submission referencing its hash. -/
inductive CrossChainAccessEvent
  | transferTokenCall (toAddress : String) (tokenAddress : String) (amount : ℚ)
  | createOrderCall (txHash : String)
deriving DecidableEq

/-- Model of `CrossChainAccessClient.checkTradingAvailability` (`sdk/client.ts`, lines
195-227): market-hours gate, then the account-status gate with the
reasons-list message; an account-status fetch failure is reported, not
thrown. -/
def checkTradingAvailability (env : CrossChainAccessEnv) : Bool × String :=
  if !env.marketStatusOpen then
    (false, env.marketStatusMessage)
  else
    match env.accountStatus with
    | .ok status =>
        if !isTradingAllowed status then
          let reasons :=
            (if status.accountBlocked then ["account blocked"] else []) ++
            (if status.tradingBlocked then ["trading blocked"] else []) ++
            (if status.transfersBlocked then ["transfers blocked"] else []) ++
            (if status.tradeSuspendedByUser then ["suspended by user"] else []) ++
            (if !status.marketOpen then ["market closed"] else [])
          (false, "Trading not available: " ++ String.intercalate ", " reasons)
        else
          (true, "Trading is available")
    | .error e => (false, "Failed to check account status: " ++ e)

/-- Token decimals for rounding (`sdk/client.ts`, `RWA_DECIMALS`). -/
def RWA_DECIMALS : ℕ := 9

/-- Token decimals for rounding (`sdk/client.ts`, `USDC_DECIMALS`). -/
def USDC_DECIMALS : ℕ := 2

/-- Model of `CrossChainAccessClient.executeTrade` (`sdk/client.ts`, lines 320-467):
availability gate, quote, amount calculation with decimal rounding, funds or
balance check, on-chain transfer to the topup address, off-chain order
creation referencing the transfer hash, and the final `TradeResult`.  The
amount-calculation branches for BUY and SELL are duplicated verbatim in the
source, and the non-null assertion `usdcAmount!` is rendered as
`Option.getD 0`. -/
def CrossChainAccessClient.executeTrade (usdcAddress topupAddress : String)
    (network : Network) (rwaTokenAddress rwaSymbol : String)
    (rwaAmount usdcAmount : Option ℚ) (orderSide : OrderSide)
    (userEmail : String) (env : CrossChainAccessEnv) :
    Except CrossChainAccessError TradeResult × List CrossChainAccessEvent :=
  match checkTradingAvailability env with
  | (false, message) =>
      (if stringIncludes (stringToLower message) "market" ||
          stringIncludes (stringToLower message) "closed" then
        .error (.marketClosed message)
      else
        .error (.accountBlocked message), [])
  | (true, _) =>
      let price := getPriceForSide env.assetQuote orderSide
      let amounts : ℚ × ℚ :=
        if orderSide = OrderSide.BUY then
          match rwaAmount with
          | some a => (a, a * price)
          | none => ((usdcAmount.getD 0) / price, usdcAmount.getD 0)
        else
          match rwaAmount with
          | some a => (a, a * price)
          | none => ((usdcAmount.getD 0) / price, usdcAmount.getD 0)
      let finalRwa := roundToDecimals RWA_DECIMALS amounts.1
      let finalUsdc := roundToDecimals USDC_DECIMALS amounts.2
      let fundsCheck : Except CrossChainAccessError (String × ℚ) :=
        if orderSide = OrderSide.BUY then
          if !hasSufficientFunds env.accountFunds finalUsdc then
            .error (.insufficientFunds "Insufficient buying power")
          else
            .ok (usdcAddress, finalUsdc)
        else
          if env.rwaBalance < finalRwa then
            .error (.insufficientFunds "Insufficient RWA balance")
          else
            .ok (rwaTokenAddress, finalRwa)
      match fundsCheck with
      | .error e => (.error e, [])
      | .ok (transferToken, transferAmount) =>
          match env.transferOutcome with
          | .error e =>
              (.error (.transferFailed e),
               [.transferTokenCall topupAddress transferToken transferAmount])
          | .ok txHash =>
              match env.createOrderOutcome with
              | .error e =>
                  (.error (.orderFailed ("Order creation failed: " ++ e)),
                   [.transferTokenCall topupAddress transferToken transferAmount,
                    .createOrderCall txHash])
              | .ok orderResponse =>
                  (.ok (createTradeResult txHash (some orderResponse.orderId)
                      transferToken transferAmount
                      (if orderSide = OrderSide.BUY then rwaTokenAddress
                        else usdcAddress)
                      (if orderSide = OrderSide.BUY then finalRwa else finalUsdc)
                      price "cross_chain_access" env.now network none),
                   [.transferTokenCall topupAddress transferToken transferAmount,
                    .createOrderCall txHash])

/-- C3: for the BEST_PRICE strategy, `Router.selectPlatform` returns the sole
available option when exactly one is available; when both are available it
returns the cross-chain-access option exactly when `isBuy` and its effective
rate is `≤` the market-maker rate, or not `isBuy` and its rate is `≥`, and
otherwise the market-maker option (lower rate wins for buys, higher for
sells, ties to the first-evaluated venue). -/
theorem selectPlatform_best_price_rule
    (crossChainAccessOption marketMakerOption : PlatformOption) (isBuy : Bool) :
    ((crossChainAccessOption.available && crossChainAccessOption.quote.isSome) = true →
      (marketMakerOption.available && marketMakerOption.quote.isSome) = false →
      Router.selectPlatform crossChainAccessOption marketMakerOption
        .BEST_PRICE isBuy = .ok crossChainAccessOption)
    ∧ ((crossChainAccessOption.available && crossChainAccessOption.quote.isSome) = false →
      (marketMakerOption.available && marketMakerOption.quote.isSome) = true →
      Router.selectPlatform crossChainAccessOption marketMakerOption
        .BEST_PRICE isBuy = .ok marketMakerOption)
    ∧ ((crossChainAccessOption.available && crossChainAccessOption.quote.isSome) = true →
      (marketMakerOption.available && marketMakerOption.quote.isSome) = true →
      Router.selectPlatform crossChainAccessOption marketMakerOption
        .BEST_PRICE isBuy =
        .ok (if (isBuy = true ∧
                  getEffectiveRate crossChainAccessOption ≤
                    getEffectiveRate marketMakerOption) ∨
                (isBuy = false ∧
                  getEffectiveRate crossChainAccessOption ≥
                    getEffectiveRate marketMakerOption)
             then crossChainAccessOption else marketMakerOption)) := by
  refine ⟨?_, ?_, ?_⟩ <;> intro h1 h2
  · simp [Router.selectPlatform, h1, h2]
  · simp [Router.selectPlatform, h1, h2]
  · simp only [Router.selectPlatform, h1, h2]
    cases isBuy <;>
      by_cases hle : getEffectiveRate crossChainAccessOption ≤
          getEffectiveRate marketMakerOption <;>
      by_cases hge : getEffectiveRate crossChainAccessOption ≥
          getEffectiveRate marketMakerOption <;>
      simp [hle, hge]

/-- C3 witness: concrete instances discharging each hypothesis of the
best-price characterization (a buy where the cross-chain-access rate 2 beats
the market-maker rate 3). -/
theorem selectPlatform_best_price_rule_witness :
    Router.selectPlatform
        ⟨.cross_chain_access, some ⟨"a", "b", 1, 2, 2, "s", 0⟩, true, none⟩
        ⟨.market_maker, some ⟨"a", "b", 1, 3, 3, "s", 0⟩, true, none⟩
        .BEST_PRICE true =
      .ok ⟨.cross_chain_access, some ⟨"a", "b", 1, 2, 2, "s", 0⟩, true, none⟩ := by
  have h := (selectPlatform_best_price_rule
    ⟨.cross_chain_access, some ⟨"a", "b", 1, 2, 2, "s", 0⟩, true, none⟩
    ⟨.market_maker, some ⟨"a", "b", 1, 3, 3, "s", 0⟩, true, none⟩ true).2.2
    (by decide) (by decide)
  rw [h]
  norm_num [getEffectiveRate]

/-- C6: under the two single-venue strategies `Router.selectPlatform` never
returns the non-named option (every successful result is the named option),
and it fails with a `NoLiquidityException` whenever the named option is
unavailable or lacks a quote. -/
theorem selectPlatform_only_strategies
    (crossChainAccessOption marketMakerOption : PlatformOption) (isBuy : Bool) :
    (∀ o, Router.selectPlatform crossChainAccessOption marketMakerOption
        .CROSS_CHAIN_ACCESS_ONLY isBuy = .ok o → o = crossChainAccessOption)
    ∧ ((crossChainAccessOption.available &&
          crossChainAccessOption.quote.isSome) = false →
        ∃ e, Router.selectPlatform crossChainAccessOption marketMakerOption
          .CROSS_CHAIN_ACCESS_ONLY isBuy = .error e)
    ∧ (∀ o, Router.selectPlatform crossChainAccessOption marketMakerOption
        .MARKET_MAKER_ONLY isBuy = .ok o → o = marketMakerOption)
    ∧ ((marketMakerOption.available && marketMakerOption.quote.isSome) = false →
        ∃ e, Router.selectPlatform crossChainAccessOption marketMakerOption
          .MARKET_MAKER_ONLY isBuy = .error e) := by
  cases hc : crossChainAccessOption.available && crossChainAccessOption.quote.isSome <;>
    cases hm : marketMakerOption.available && marketMakerOption.quote.isSome <;>
    refine ⟨?_, ?_, ?_, ?_⟩ <;>
    simp [Router.selectPlatform, hc, hm] <;>
    intro o h <;> simp_all

/-- C6 witness: concrete instances discharging the unavailability hypotheses
of the single-venue characterization. -/
theorem selectPlatform_only_strategies_witness :
    (∃ e, Router.selectPlatform
        ⟨.cross_chain_access, none, false, some "down"⟩
        ⟨.market_maker, some ⟨"a", "b", 1, 3, 3, "s", 0⟩, true, none⟩
        .CROSS_CHAIN_ACCESS_ONLY true = .error e)
    ∧ (∃ e, Router.selectPlatform
        ⟨.cross_chain_access, some ⟨"a", "b", 1, 2, 2, "s", 0⟩, true, none⟩
        ⟨.market_maker, none, false, some "down"⟩
        .MARKET_MAKER_ONLY true = .error e) := by
  refine ⟨?_, ?_⟩
  · exact (selectPlatform_only_strategies
      ⟨.cross_chain_access, none, false, some "down"⟩
      ⟨.market_maker, some ⟨"a", "b", 1, 3, 3, "s", 0⟩, true, none⟩ true).2.1
      (by decide)
  · exact (selectPlatform_only_strategies
      ⟨.cross_chain_access, some ⟨"a", "b", 1, 2, 2, "s", 0⟩, true, none⟩
      ⟨.market_maker, none, false, some "down"⟩ true).2.2.2 (by decide)

/-- C9: for every pair of options, strategy and direction,
`Router.selectPlatform` either fails or returns an option whose `available`
flag is set and whose quote is present; it never returns an unavailable or
quote-less option. -/
theorem selectPlatform_result_available
    (crossChainAccessOption marketMakerOption : PlatformOption)
    (strategy : RoutingStrategy) (isBuy : Bool) (o : PlatformOption)
    (h : Router.selectPlatform crossChainAccessOption marketMakerOption
      strategy isBuy = .ok o) :
    o.available = true ∧ o.quote.isSome = true := by
  cases hc : crossChainAccessOption.available && crossChainAccessOption.quote.isSome <;>
    cases hm : marketMakerOption.available && marketMakerOption.quote.isSome <;>
    cases strategy <;>
    simp [Router.selectPlatform, hc, hm] at h <;>
    first
      | (obtain ⟨hc1, hc2⟩ := Bool.and_eq_true .. |>.mp hc
         subst h
         exact ⟨hc1, hc2⟩)
      | (obtain ⟨hm1, hm2⟩ := Bool.and_eq_true .. |>.mp hm
         subst h
         exact ⟨hm1, hm2⟩)
      | (split at h <;> split at h <;>
          (simp only [Except.ok.injEq] at h; subst h; simp_all [Bool.and_eq_true]))

/-- C9 witness: the theorem applied at a concrete input. -/
theorem selectPlatform_result_available_witness :
    PlatformOption.available
        ⟨.cross_chain_access, some ⟨"a", "b", 1, 2, 2, "s", 0⟩, true, none⟩ = true ∧
      Option.isSome (PlatformOption.quote
        ⟨.cross_chain_access, some ⟨"a", "b", 1, 2, 2, "s", 0⟩, true, none⟩) = true :=
  selectPlatform_result_available
    ⟨.cross_chain_access, some ⟨"a", "b", 1, 2, 2, "s", 0⟩, true, none⟩
    ⟨.market_maker, none, false, none⟩ .BEST_PRICE true
    ⟨.cross_chain_access, some ⟨"a", "b", 1, 2, 2, "s", 0⟩, true, none⟩
    (by decide)

/-- C4: `TradingClient.trade` fails locally (the validation `Error`, empty
effect trace — no quote fetch, no initialization, no execution) exactly when
both or neither of `fromAmount` and `toAmount` are provided; when exactly one
is provided, the result is never the validation error. -/
theorem trade_amount_validation (client : TradingClient) (options : TradeOptions)
    (env : TradeEnv) :
    (((options.fromAmount.isSome && options.toAmount.isSome) ||
        (options.fromAmount.isNone && options.toAmount.isNone)) = true →
      TradingClient.trade client options env =
        (.error (.validationError
          "Must provide either fromAmount OR toAmount, not both"), []))
    ∧ (((options.fromAmount.isSome && options.toAmount.isSome) ||
        (options.fromAmount.isNone && options.toAmount.isNone)) = false →
      ∀ m, (TradingClient.trade client options env).1 ≠
        .error (.validationError m)) := by
  constructor <;> intro h
  · simp [TradingClient.trade, h]
  · intro m
    simp only [TradingClient.trade, h, Bool.false_eq_true, if_false]
    repeat' split
    all_goals simp

/-- C4 witness: both sides of the validation characterization at concrete
inputs (both amounts given, then only `fromAmount` given). -/
theorem trade_amount_validation_witness :
    (TradingClient.trade ⟨.BEST_PRICE, true⟩
        ⟨"f", "t", "u", some 1, some 2, none, none⟩
        ⟨.error "down", .failed "down", .error "down", .error "down"⟩ =
      (.error (.validationError
        "Must provide either fromAmount OR toAmount, not both"), []))
    ∧ ((TradingClient.trade ⟨.BEST_PRICE, true⟩
        ⟨"f", "t", "u", some 1, none, none, none⟩
        ⟨.error "down", .failed "down", .error "down", .error "down"⟩).1 ≠
      .error (.validationError
        "Must provide either fromAmount OR toAmount, not both")) := by
  constructor
  · exact (trade_amount_validation ⟨.BEST_PRICE, true⟩
      ⟨"f", "t", "u", some 1, some 2, none, none⟩
      ⟨.error "down", .failed "down", .error "down", .error "down"⟩).1 (by decide)
  · exact (trade_amount_validation ⟨.BEST_PRICE, true⟩
      ⟨"f", "t", "u", some 1, none, none, none⟩
      ⟨.error "down", .failed "down", .error "down", .error "down"⟩).2 (by decide) _

/-- C10: when validation passes, the router invocation inside
`TradingClient.trade` receives `isBuy = fromAmount.isSome` — the direction is
determined solely by which amount field is set (so a `toAmount`-only request
is always routed as a sell-side comparison), and every router call in the
trace carries exactly that flag. -/
theorem trade_isBuy_from_amount_side (client : TradingClient)
    (options : TradeOptions) (env : TradeEnv)
    (h : ((options.fromAmount.isSome && options.toAmount.isSome) ||
        (options.fromAmount.isNone && options.toAmount.isNone)) = false) :
    TradeEvent.routerCall (options.routingStrategy.getD client.routingStrategy)
        options.fromAmount.isSome ∈ (TradingClient.trade client options env).2
    ∧ ∀ s b, TradeEvent.routerCall s b ∈ (TradingClient.trade client options env).2 →
        b = options.fromAmount.isSome := by
  constructor
  · simp only [TradingClient.trade, h, Bool.false_eq_true, if_false]
    repeat' split
    all_goals simp
  · intro s b hm
    simp only [TradingClient.trade, h, Bool.false_eq_true, if_false] at hm
    repeat' split at hm
    all_goals simp_all

/-- C10 witness: a request giving only `toAmount` is routed with
`isBuy = false`. -/
theorem trade_isBuy_from_amount_side_witness :
    TradeEvent.routerCall .BEST_PRICE false ∈
      (TradingClient.trade ⟨.BEST_PRICE, true⟩
        ⟨"f", "t", "u", none, some 5, some "AAPL", none⟩
        ⟨.error "down", .failed "down", .error "down", .error "down"⟩).2 :=
  (trade_isBuy_from_amount_side ⟨.BEST_PRICE, true⟩
    ⟨"f", "t", "u", none, some 5, some "AAPL", none⟩
    ⟨.error "down", .failed "down", .error "down", .error "down"⟩ (by decide)).1

/-- C8: every quote-fetch failure is caught and converted into an unavailable
option recording the reason (with the `MarketClosedException` case recorded
as `"Market closed"`), and — for any outcome environment — `trade` still
fetches the other venue option and reaches the router with the resulting
pair: the market-maker fetch, the cross-chain-access fetch (when a symbol is
given) and the router call are always in the trace once validation passes. -/
theorem trade_quote_failure_isolated (client : TradingClient)
    (options : TradeOptions) (env : TradeEnv)
    (h : ((options.fromAmount.isSome && options.toAmount.isSome) ||
        (options.fromAmount.isNone && options.toAmount.isNone)) = false) :
    (∀ e, env.marketMakerQuote = .error e →
      getMarketMakerOption env = ⟨.market_maker, none, false, some e⟩)
    ∧ (∀ sym e, env.crossChainAccessQuote = .failed e →
      getCrossChainAccessOption env (some sym) =
        ⟨.cross_chain_access, none, false, some e⟩)
    ∧ (∀ sym m, env.crossChainAccessQuote = .marketClosed m →
      getCrossChainAccessOption env (some sym) =
        ⟨.cross_chain_access, none, false, some "Market closed"⟩)
    ∧ TradeEvent.marketMakerQuoteFetch ∈ (TradingClient.trade client options env).2
    ∧ (∀ sym, options.toTokenSymbol = some sym →
      TradeEvent.crossChainAccessQuoteFetch ∈
        (TradingClient.trade client options env).2)
    ∧ TradeEvent.routerCall (options.routingStrategy.getD client.routingStrategy)
        options.fromAmount.isSome ∈ (TradingClient.trade client options env).2 := by
  refine ⟨?_, ?_, ?_, ?_, ?_, ?_⟩
  · intro e he
    simp [getMarketMakerOption, he, createPlatformOption]
  · intro sym e he
    simp [getCrossChainAccessOption, he, createPlatformOption]
  · intro sym m hm
    simp [getCrossChainAccessOption, hm, createPlatformOption]
  · simp only [TradingClient.trade, h, Bool.false_eq_true, if_false]
    repeat' split
    all_goals simp
  · intro sym hsym
    simp only [TradingClient.trade, h, Bool.false_eq_true, if_false, hsym]
    repeat' split
    all_goals simp_all
  · simp only [TradingClient.trade, h, Bool.false_eq_true, if_false]
    repeat' split
    all_goals simp

/-- C8 witness: with the market-maker quote failing and a symbol present, the
failure is converted to an unavailable option and the cross-chain-access
fetch and router call still happen. -/
theorem trade_quote_failure_isolated_witness :
    getMarketMakerOption
        ⟨.error "down", .ok ⟨"a", "b", 1, 2, 2, "s", 0⟩, .error "down", .error "down"⟩ =
      ⟨.market_maker, none, false, some "down"⟩
    ∧ TradeEvent.crossChainAccessQuoteFetch ∈
      (TradingClient.trade ⟨.BEST_PRICE, true⟩
        ⟨"f", "t", "u", some 1, none, some "AAPL", none⟩
        ⟨.error "down", .ok ⟨"a", "b", 1, 2, 2, "s", 0⟩, .error "down",
          .error "down"⟩).2 := by
  have h := trade_quote_failure_isolated ⟨.BEST_PRICE, true⟩
    ⟨"f", "t", "u", some 1, none, some "AAPL", none⟩
    ⟨.error "down", .ok ⟨"a", "b", 1, 2, 2, "s", 0⟩, .error "down", .error "down"⟩
    (by decide)
  exact ⟨h.1 "down" rfl, h.2.2.2.2.1 "AAPL" rfl⟩

/-- The cross-chain-access option computed inline in `trade` coincides with
`getCrossChainAccessOption` on the optional symbol (the source duplicates the
missing-symbol literal at the call site and inside the helper). -/
theorem tradeCcaOption_eq (env : TradeEnv) (sym : Option String) :
    (match sym with
      | some s => getCrossChainAccessOption env (some s)
      | none => createPlatformOption .cross_chain_access none (some false)
          (some "Symbol not provided")) = getCrossChainAccessOption env sym := by
  cases sym <;> rfl

/-- C5: after the selected platform's execution fails, `TradingClient.trade`
attempts the alternate platform if and only if the active strategy is
BEST_PRICE, CROSS_CHAIN_ACCESS_FIRST or MARKET_MAKER_FIRST and the alternate
option's `available` flag is set; when the fallback also fails the surfaced
error is `AllPlatformsFailedException` carrying both underlying errors, and
under a venue-only strategy the original error is propagated wrapped as a
generic `TradingException` with no fallback attempt. -/
theorem trade_fallback_gating (client : TradingClient) (options : TradeOptions)
    (env : TradeEnv) (selected : PlatformOption) (err : String)
    (strat : RoutingStrategy)
    (hv : ((options.fromAmount.isSome && options.toAmount.isSome) ||
        (options.fromAmount.isNone && options.toAmount.isNone)) = false)
    (hstrat : options.routingStrategy.getD client.routingStrategy = strat)
    (hsel : Router.selectPlatform
        (getCrossChainAccessOption env options.toTokenSymbol)
        (getMarketMakerOption env) strat options.fromAmount.isSome = .ok selected)
    (hexec : executePlatformTrade env selected.platform = .error err) :
    (TradeEvent.executeAttempt (otherPlatform selected.platform) ∈
        (TradingClient.trade client options env).2 ↔
      ((strat = .BEST_PRICE ∨ strat = .CROSS_CHAIN_ACCESS_FIRST ∨
          strat = .MARKET_MAKER_FIRST) ∧
        (match selected.platform with
          | .cross_chain_access => getMarketMakerOption env
          | .market_maker =>
              getCrossChainAccessOption env options.toTokenSymbol).available = true))
    ∧ (∀ e2,
        (strat = .BEST_PRICE ∨ strat = .CROSS_CHAIN_ACCESS_FIRST ∨
          strat = .MARKET_MAKER_FIRST) →
        (match selected.platform with
          | .cross_chain_access => getMarketMakerOption env
          | .market_maker =>
              getCrossChainAccessOption env options.toTokenSymbol).available = true →
        executePlatformTrade env (otherPlatform selected.platform) = .error e2 →
        (TradingClient.trade client options env).1 =
          .error (.allPlatformsFailed (allPlatformsFailedMessage selected.platform
            err (otherPlatform selected.platform) e2)))
    ∧ (¬ (strat = .BEST_PRICE ∨ strat = .CROSS_CHAIN_ACCESS_FIRST ∨
          strat = .MARKET_MAKER_FIRST) →
        (TradingClient.trade client options env).1 =
          .error (.tradingError ("Trade failed: " ++ err))) := by
  obtain ⟨plat, qsel, avsel, ersel⟩ := selected
  have hcca := tradeCcaOption_eq env options.toTokenSymbol
  refine ⟨?_, ?_, ?_⟩
  · by_cases hall : (strat = RoutingStrategy.BEST_PRICE ∨
        strat = RoutingStrategy.CROSS_CHAIN_ACCESS_FIRST ∨
        strat = RoutingStrategy.MARKET_MAKER_FIRST)
    · cases plat
      · simp only [TradingClient.trade, hv, Bool.false_eq_true, if_false, hcca,
          hstrat, hsel, hexec, otherPlatform, hall, true_and]
        cases hav : (getMarketMakerOption env).available
        · simp only [hav, Bool.false_eq_true, if_false]
          repeat' split
          all_goals simp_all
        · simp only [hav, if_true]
          cases hres : executePlatformTrade env Platform.market_maker <;>
            simp only [hres] <;> (repeat' split) <;> simp_all
      · simp only [TradingClient.trade, hv, Bool.false_eq_true, if_false, hcca,
          hstrat, hsel, hexec, otherPlatform, hall, true_and]
        cases hav : (getCrossChainAccessOption env options.toTokenSymbol).available
        · simp only [hav, Bool.false_eq_true, if_false]
          repeat' split
          all_goals simp_all
        · simp only [hav, if_true]
          cases hres : executePlatformTrade env Platform.cross_chain_access <;>
            simp only [hres] <;> (repeat' split) <;> simp_all
    · cases plat <;>
        simp only [TradingClient.trade, hv, Bool.false_eq_true, if_false, hcca,
          hstrat, hsel, hexec, otherPlatform, hall, false_and, iff_false,
          eq_false hall] <;>
        (repeat' split) <;> simp_all
  · intro e2 hall hav hfb
    cases plat <;>
      simp only [otherPlatform] at hfb <;>
      simp only at hav <;>
      simp [TradingClient.trade, hv, hcca, hstrat, hsel, hexec, hall, hav, hfb,
        otherPlatform]
  · intro hall
    cases plat <;>
      simp [TradingClient.trade, hv, hcca, hstrat, hsel, hexec, hall]

/-- C5 witness: a BEST_PRICE buy where the selected cross-chain-access
execution fails, the available market-maker fallback is attempted and also
fails, and the surfaced error is `AllPlatformsFailedException` carrying both
underlying errors. -/
theorem trade_fallback_gating_witness :
    (TradingClient.trade ⟨.BEST_PRICE, true⟩
        ⟨"f", "t", "u", some 1, none, some "AAPL", none⟩
        ⟨.ok ⟨"a", "b", 1, 3, 3, "s", 0⟩, .ok ⟨"a", "b", 1, 2, 2, "s", 0⟩,
          .error "mm boom", .error "cca boom"⟩).1 =
      .error (.allPlatformsFailed
        (allPlatformsFailedMessage .cross_chain_access "cca boom"
          .market_maker "mm boom")) := by
  have h := trade_fallback_gating ⟨.BEST_PRICE, true⟩
    ⟨"f", "t", "u", some 1, none, some "AAPL", none⟩
    ⟨.ok ⟨"a", "b", 1, 3, 3, "s", 0⟩, .ok ⟨"a", "b", 1, 2, 2, "s", 0⟩,
      .error "mm boom", .error "cca boom"⟩
    ⟨.cross_chain_access, some ⟨"a", "b", 1, 2, 2, "s", 0⟩, true, none⟩
    "cca boom" .BEST_PRICE (by decide) rfl
    (by norm_num [Router.selectPlatform, getCrossChainAccessOption,
      getMarketMakerOption, createPlatformOption, getEffectiveRate]) rfl
  exact h.2.1 "mm boom" (Or.inl rfl) rfl rfl

/-- C7: in `MarketMakerClient.trade`, a dynamic-pricing selected offer whose
`depositToWithdrawalRate` is absent aborts with a `MarketMakerWeb3Exception`
before any take-offer transaction; when the rate is present the dynamic
branch is invoked with the offer id, amount, max rate and affiliate; any
other pricing type invokes the fixed branch with the offer id, amount and
affiliate. -/
theorem marketMaker_trade_pricing_branch (network : Network)
    (fromToken toToken : String) (affiliate : Option String)
    (env : MarketMakerEnv) (offer : SelectedOffer) (rest : List SelectedOffer)
    (hoffers : env.bestOffers = .ok (offer :: rest)) :
    (offer.pricingType = .DynamicPricing → offer.depositToWithdrawalRate = none →
      MarketMakerClient.trade network fromToken toToken affiliate env =
        (.error (.web3 ("Dynamic offer " ++ offer.id ++
          " missing depositToWithdrawalRate")), [.getBestOffersCall]))
    ∧ (∀ r, offer.pricingType = .DynamicPricing →
      offer.depositToWithdrawalRate = some r →
      MarketMakerEvent.takeOfferDynamicCall offer.id fromToken
          offer.withdrawalAmountPaid r affiliate ∈
        (MarketMakerClient.trade network fromToken toToken affiliate env).2)
    ∧ (offer.pricingType = .FixedPricing →
      MarketMakerEvent.takeOfferFixedCall offer.id fromToken
          offer.withdrawalAmountPaid affiliate ∈
        (MarketMakerClient.trade network fromToken toToken affiliate env).2) := by
  refine ⟨?_, ?_, ?_⟩
  · intro hdyn hnone
    simp [MarketMakerClient.trade, hoffers, hdyn, hnone]
  · intro r hdyn hsome
    simp only [MarketMakerClient.trade, hoffers, hdyn, hsome]
    repeat' split
    all_goals simp_all
  · intro hfix
    simp only [MarketMakerClient.trade, hoffers, hfix]
    repeat' split
    all_goals simp_all

/-- C7 witness: the three branches at concrete offers (a rate-less dynamic
offer aborting, a dynamic offer with a rate reaching the dynamic call, and a
fixed offer reaching the fixed call). -/
theorem marketMaker_trade_pricing_branch_witness :
    (MarketMakerClient.trade .POLYGON "f" "t" none
        ⟨.ok [⟨"o1", 100, 0, "m", 2, .DynamicPricing, none⟩], .ok "0xtx",
          .ok "0xtx", 0⟩ =
      (.error (.web3 "Dynamic offer o1 missing depositToWithdrawalRate"),
        [.getBestOffersCall]))
    ∧ MarketMakerEvent.takeOfferDynamicCall "o2" "f" 100 7 none ∈
      (MarketMakerClient.trade .POLYGON "f" "t" none
        ⟨.ok [⟨"o2", 100, 0, "m", 2, .DynamicPricing, some 7⟩], .ok "0xtx",
          .ok "0xtx", 0⟩).2
    ∧ MarketMakerEvent.takeOfferFixedCall "o3" "f" 100 none ∈
      (MarketMakerClient.trade .POLYGON "f" "t" none
        ⟨.ok [⟨"o3", 100, 0, "m", 2, .FixedPricing, none⟩], .ok "0xtx",
          .ok "0xtx", 0⟩).2 := by
  refine ⟨?_, ?_, ?_⟩
  · exact (marketMaker_trade_pricing_branch .POLYGON "f" "t" none
      ⟨.ok [⟨"o1", 100, 0, "m", 2, .DynamicPricing, none⟩], .ok "0xtx",
        .ok "0xtx", 0⟩
      ⟨"o1", 100, 0, "m", 2, .DynamicPricing, none⟩ [] rfl).1 rfl rfl
  · exact (marketMaker_trade_pricing_branch .POLYGON "f" "t" none
      ⟨.ok [⟨"o2", 100, 0, "m", 2, .DynamicPricing, some 7⟩], .ok "0xtx",
        .ok "0xtx", 0⟩
      ⟨"o2", 100, 0, "m", 2, .DynamicPricing, some 7⟩ [] rfl).2.1 7 rfl rfl
  · exact (marketMaker_trade_pricing_branch .POLYGON "f" "t" none
      ⟨.ok [⟨"o3", 100, 0, "m", 2, .FixedPricing, none⟩], .ok "0xtx",
        .ok "0xtx", 0⟩
      ⟨"o3", 100, 0, "m", 2, .FixedPricing, none⟩ [] rfl).2.2 rfl

/-- C1: the `rate` field does not equal `buyAmount / sellAmount`.  At
`askPrice = 2`, `CrossChainAccessClient.getQuote` returns a quote with
`rate = 2` while `buyAmount / sellAmount = 1/2` (the documented
`getQuotePricePerUnit`), and at `pricePerUnit = 2` a successful
`MarketMakerClient.trade` result has `rate = 2` while its
`buyAmount / sellAmount = 1/2`. -/
theorem rate_field_vs_amount_quotient :
    (CrossChainAccessClient.getQuote "0xUSDC" "AAPL" ⟨1, 2, 0, 0, 0⟩ 0).rate = 2
    ∧ getQuotePricePerUnit
        (CrossChainAccessClient.getQuote "0xUSDC" "AAPL" ⟨1, 2, 0, 0, 0⟩ 0) = 1 / 2
    ∧ (CrossChainAccessClient.getQuote "0xUSDC" "AAPL" ⟨1, 2, 0, 0, 0⟩ 0).rate ≠
        getQuotePricePerUnit
          (CrossChainAccessClient.getQuote "0xUSDC" "AAPL" ⟨1, 2, 0, 0, 0⟩ 0)
    ∧ (MarketMakerClient.trade .POLYGON "f" "t" none
        ⟨.ok [⟨"o9", 100, 0, "m", 2, .FixedPricing, none⟩], .ok "0xfixed",
          .ok "0xfixed", 0⟩).1.map (fun r => r.rate) = .ok 2
    ∧ (MarketMakerClient.trade .POLYGON "f" "t" none
        ⟨.ok [⟨"o9", 100, 0, "m", 2, .FixedPricing, none⟩], .ok "0xfixed",
          .ok "0xfixed", 0⟩).1.map
        (fun r => if r.sellAmount = 0 then 0 else r.buyAmount / r.sellAmount) =
      .ok (1 / 2) := by
  refine ⟨rfl, ?_, ?_, ?_, ?_⟩
  · norm_num [CrossChainAccessClient.getQuote, getQuotePricePerUnit]
  · norm_num [CrossChainAccessClient.getQuote, getQuotePricePerUnit]
  · simp +decide [MarketMakerClient.trade, createTradeResult]
  · simp +decide [MarketMakerClient.trade, createTradeResult, Except.map]
    norm_num

/-- C2: when the on-chain transfer succeeds (hash `0xdeadbeef`) and the
subsequent `createOrder` call fails, `executeTrade` surfaces the
`OrderFailedException` wrap of the underlying error; the transfer is not
retried (exactly one transfer event in the trace), but the surfaced error
message does not contain the confirmed transfer hash. -/
theorem executeTrade_order_failure_drops_hash :
    CrossChainAccessClient.executeTrade "0xUSDC" "0xTOPUP" .POLYGON "0xRWA"
        "AAPL" none (some 100) .BUY "u"
        ⟨true, "open", .ok ⟨false, false, false, false, true, "ACTIVE"⟩,
          ⟨10, 10, 0, 0, 0⟩, ⟨1000, 1000, 0, 0, 0, 0⟩, 1000, .ok "0xdeadbeef",
          .error "APIException: 500", 0⟩ =
      (.error (.orderFailed "Order creation failed: APIException: 500"),
        [.transferTokenCall "0xTOPUP" "0xUSDC" 100, .createOrderCall "0xdeadbeef"])
    ∧ stringIncludes "Order creation failed: APIException: 500" "0xdeadbeef" = false
    ∧ (CrossChainAccessClient.executeTrade "0xUSDC" "0xTOPUP" .POLYGON "0xRWA"
        "AAPL" none (some 100) .BUY "u"
        ⟨true, "open", .ok ⟨false, false, false, false, true, "ACTIVE"⟩,
          ⟨10, 10, 0, 0, 0⟩, ⟨1000, 1000, 0, 0, 0, 0⟩, 1000, .ok "0xdeadbeef",
          .error "APIException: 500", 0⟩).2.countP
        (fun e =>
          match e with
          | CrossChainAccessEvent.transferTokenCall _ _ _ => true
          | _ => false) = 1 := by
  refine ⟨?_, by decide, ?_⟩
  · simp +decide [CrossChainAccessClient.executeTrade, checkTradingAvailability,
      isTradingAllowed, getPriceForSide, hasSufficientFunds, roundToDecimals,
      RWA_DECIMALS, USDC_DECIMALS, round_eq]
    norm_num
  · simp +decide [CrossChainAccessClient.executeTrade, checkTradingAvailability,
      isTradingAllowed, getPriceForSide, hasSufficientFunds, roundToDecimals,
      RWA_DECIMALS, USDC_DECIMALS, round_eq]
    norm_num
